import Mathlib

/-!
Verification of `src/scripts/pinterest_downloader.py`.

The Python program is shallowly embedded: every collaborator (the HTTP
client, the HTML parser, the external mux tool, the filesystem, the clock)
is an explicit oracle passed as an argument, and the embedded functions are
pure Lean functions over those oracles.  Network requests and filesystem
events are logged in explicit traces so that short-circuit claims ("no
further request is issued") are statable.
-/

/-- Python whitespace characters stripped by `str.strip()`. -/
def pySpace (c : Char) : Bool :=
  c = ' ' || c = '\t' || c = '\n' || c = '\r' || c = '\x0b' || c = '\x0c'

/-- Strip Python whitespace from both ends of a character list. -/
def pyStripL (l : List Char) : List Char :=
  ((l.dropWhile pySpace).reverse.dropWhile pySpace).reverse

/-- Split a character list on a separator character, keeping empty pieces,
matching Python `str.split(sep)` for a one-character separator. -/
def splitOnChar (sep : Char) : List Char → List (List Char)
  | [] => [[]]
  | c :: rest =>
    if c = sep then [] :: splitOnChar sep rest
    else
      match splitOnChar sep rest with
      | [] => [[c]]
      | l :: ls => (c :: l) :: ls

/-- Substring test, matching Python `pat in s`. -/
def hasSubList (pat : List Char) : List Char → Bool
  | [] => pat.isPrefixOf []
  | c :: rest => pat.isPrefixOf (c :: rest) || hasSubList pat rest

/-- Worker for Python `str.replace`: replaces each leftmost, non-overlapping
occurrence of `pat` by `rep`.  The `skip` counter consumes the remaining
characters of a just-matched occurrence. -/
def replaceGo (pat rep : List Char) : Nat → List Char → List Char
  | _, [] => []
  | s + 1, _ :: rest => replaceGo pat rep s rest
  | 0, c :: rest =>
    if pat ≠ [] ∧ pat.isPrefixOf (c :: rest) then
      rep ++ replaceGo pat rep (pat.length - 1) rest
    else
      c :: replaceGo pat rep 0 rest

/-- Characters before the first double quote; `none` when no quote follows.
Models the regex fragment matching a quote-free run closed by a quote. -/
def takeUntilQuote : List Char → Option (List Char)
  | [] => none
  | c :: rest => if c = '"' then some [] else (takeUntilQuote rest).map (c :: ·)

/-- Characters before the first ampersand, failing on a newline first, as the
lazy group of the pattern matching text between a marker and an ampersand
(`.` does not cross newlines in Python). -/
def takeUntilAmp : List Char → Option (List Char)
  | [] => none
  | c :: rest =>
    if c = '&' then some []
    else if c = '\n' then none
    else (takeUntilAmp rest).map (c :: ·)

/-- Leftmost-match scan: try the position matcher `f` at every suffix,
returning the first hit, as `re.search` does. -/
def scanFirst (f : List Char → Option (List Char)) : List Char → Option (List Char)
  | [] => f []
  | c :: rest =>
    match f (c :: rest) with
    | some r => some r
    | none => scanFirst f rest

/-- First suffix of the input that starts with `p` (the whole suffix is
returned), scanning left to right. -/
def scanPrefixPos (p : List Char) : List Char → Option (List Char)
  | [] => if p.isPrefixOf ([] : List Char) then some ([] : List Char) else none
  | c :: rest => if p.isPrefixOf (c :: rest) then some (c :: rest) else scanPrefixPos p rest

/-- Longest prefix of `run` that ends with `sfx` (greedy regex backtracking
for a literal-suffix-closed greedy star). -/
def longestPrefixEndingWith (sfx run : List Char) : Option (List Char) :=
  (scanPrefixPos sfx.reverse run.reverse).map List.reverse

/-- Python `pat in s` on strings. -/
def strContains (pat s : String) : Bool := hasSubList pat.data s.data

/-- Python `s.startswith(p)`. -/
def strStarts (p s : String) : Bool := p.data.isPrefixOf s.data

/-- Python `s.endswith(p)`. -/
def strEnds (p s : String) : Bool := p.data.isSuffixOf s.data

/-- Python `s.strip()`. -/
def pyStrip (s : String) : String := ⟨pyStripL s.data⟩

/-- Python `s.replace(pat, rep)` (all non-overlapping occurrences). -/
def pyReplace (s pat rep : String) : String := ⟨replaceGo pat.data rep.data 0 s.data⟩

/-- Python `s.split("\n")`. -/
def splitLinesS (s : String) : List String :=
  (splitOnChar '\n' s.data).map (fun l => (⟨l⟩ : String))

/-- Python `s.split(",")`. -/
def splitCommaS (s : String) : List String :=
  (splitOnChar ',' s.data).map (fun l => (⟨l⟩ : String))

/-- Python `s.split("/")[-1]`: the part after the last slash (the whole
string when there is no slash). -/
def lastComponent (s : String) : String :=
  ⟨(s.data.reverse.takeWhile (fun c => c ≠ '/')).reverse⟩

/-- Python `s.rsplit("/", 1)[0] + "/"` as used for the playlist base URL. -/
def baseUrl (s : String) : String :=
  match s.data.reverse.dropWhile (fun c => c ≠ '/') with
  | [] => ⟨s.data ++ ['/']⟩
  | _ :: rest => ⟨rest.reverse ++ ['/']⟩

/-- Leftmost match of the audio-URI pattern: at an occurrence of the literal
marker, the quote-free run up to the closing quote must end with the audio
sub-manifest suffix; the captured group (the run) is returned. -/
def audioUriAt (s : List Char) : Option (List Char) :=
  if ("URI=\"".data).isPrefixOf s then
    match takeUntilQuote (List.drop 5 s) with
    | some run => if ("_audio.m3u8".data).isSuffixOf run then some run else none
    | none => none
  else none

/-- Search for the audio-URI pattern anywhere in the playlist body. -/
def audioUriSearch (body : String) : Option String :=
  (scanFirst audioUriAt body.data).map (fun l => (⟨l⟩ : String))

/-- Position matcher for the short-link query pattern matching text between
the marker `url=` and an ampersand (lazy group, newline-blocked). -/
def urlParamAt (s : List Char) : Option (List Char) :=
  if ("url=".data).isPrefixOf s then takeUntilAmp (List.drop 4 s) else none

/-- Leftmost match of the short-link query pattern over an href value. -/
def urlParamSearch (href : String) : Option String :=
  (scanFirst urlParamAt href.data).map (fun l => (⟨l⟩ : String))

/-- Position matcher for the literal-host playlist pattern: the pinimg video
host followed by a quote-free run ending with the playlist suffix. -/
def pat1At (s : List Char) : Option (List Char) :=
  if ("https://v1.pinimg.com/videos/".data).isPrefixOf s then
    match longestPrefixEndingWith (".m3u8".data)
        ((List.drop 29 s).takeWhile (fun c => c ≠ '"' && c ≠ '\'')) with
    | some body => some ("https://v1.pinimg.com/videos/".data ++ body)
    | none => none
  else none

/-- Position matcher for the literal-host direct-file pattern. -/
def pat2At (s : List Char) : Option (List Char) :=
  if ("https://v1.pinimg.com/videos/".data).isPrefixOf s then
    match longestPrefixEndingWith (".mp4".data)
        ((List.drop 29 s).takeWhile (fun c => c ≠ '"' && c ≠ '\'')) with
    | some body => some ("https://v1.pinimg.com/videos/".data ++ body)
    | none => none
  else none

/-- Position matcher for the JSON field pattern keyed `videoUrl`: the quoted
group may be empty. -/
def pat3At (s : List Char) : Option (List Char) :=
  if ("\"videoUrl\":\"".data).isPrefixOf s then takeUntilQuote (List.drop 12 s) else none

/-- Position matcher for the JSON field pattern keyed `video_url`. -/
def pat4At (s : List Char) : Option (List Char) :=
  if ("\"video_url\":\"".data).isPrefixOf s then takeUntilQuote (List.drop 13 s) else none

/-- First match of the playlist-host pattern over the serialized page. -/
def findPat1 (text : String) : Option String :=
  (scanFirst pat1At text.data).map (fun l => (⟨l⟩ : String))

/-- First match of the direct-file-host pattern over the serialized page. -/
def findPat2 (text : String) : Option String :=
  (scanFirst pat2At text.data).map (fun l => (⟨l⟩ : String))

/-- First captured group of the `videoUrl` JSON pattern. -/
def findPat3 (text : String) : Option String :=
  (scanFirst pat3At text.data).map (fun l => (⟨l⟩ : String))

/-- First captured group of the `video_url` JSON pattern. -/
def findPat4 (text : String) : Option String :=
  (scanFirst pat4At text.data).map (fun l => (⟨l⟩ : String))

/-- An HTTP request issued by the resolver. -/
inductive Req where
  | head (url : String)
  | get (url : String)
deriving DecidableEq

/-- An HTTP response: status code, text body, and streamed byte chunks
(`iter_content`). -/
structure Response where
  status : Nat
  body : String
  chunks : List (List Nat)
deriving DecidableEq

/-- The HTTP collaborator (`requests.get` / `requests.head`). -/
structure Net where
  get : String → Response
  head : String → Nat

/-- The `method` tag returned by `get_video_and_audio_urls`. -/
inductive Method where
  | simple
  | hls_separate
  | hls_video_only
  | failed
deriving DecidableEq

/-- Result of `get_video_and_audio_urls`, with the request trace. -/
structure ResolveResult where
  video : Option String
  audio : Option String
  method : Method
  trace : List Req
deriving DecidableEq

/-- Tier 1 rewrite: `m3u8_url.replace("hls", "720p").replace("m3u8", "mp4")`. -/
def simpleConvert (url : String) : String :=
  pyReplace (pyReplace url "hls" "720p") "m3u8" "mp4"

/-- The quality order probed by Tier 2, highest first. -/
def qualityOrder : List String := ["720w", "540w", "360w", "240w"]

/-- Scan audio sub-manifest lines for the first line ending in the audio
segment suffix whose resolved URL existence-checks success (source lines
46-52). -/
def findAudioSegment (net : Net) (base : String) : List String → Option String × List Req
  | [] => (none, [])
  | line :: rest =>
    if strEnds ".cmfa" line then
      let fileUrl := base ++ pyStrip line
      if net.head fileUrl = 200 then (some fileUrl, [Req.head fileUrl])
      else
        let r := findAudioSegment net base rest
        (r.1, Req.head fileUrl :: r.2)
    else findAudioSegment net base rest

/-- Audio extraction of Tier 2 (source lines 38-52): regex search for the
audio sub-manifest, fetch it, scan its lines. -/
def audioExtract (net : Net) (base body : String) : Option String × List Req :=
  match audioUriSearch body with
  | none => (none, [])
  | some uri =>
    let apu := base ++ uri
    let resp := net.get apu
    if resp.status = 200 then
      let r := findAudioSegment net base (splitLinesS resp.body)
      (r.1, Req.get apu :: r.2)
    else (none, [Req.get apu])

/-- Scan video sub-manifest lines for the first line ending in the video
segment suffix whose resolved URL existence-checks success (source lines
68-74). -/
def scanVideoLines (net : Net) (base : String) : List String → Option String × List Req
  | [] => (none, [])
  | line :: rest =>
    if strEnds ".cmfv" line then
      let fileUrl := base ++ pyStrip line
      if net.head fileUrl = 200 then (some fileUrl, [Req.head fileUrl])
      else
        let r := scanVideoLines net base rest
        (r.1, Req.head fileUrl :: r.2)
    else scanVideoLines net base rest

/-- One quality attempt of Tier 2 (source lines 60-74): build the quality
sub-manifest URL, fetch it, scan its lines. -/
def tryQuality (net : Net) (url base q : String) : Option String × List Req :=
  let streamUrl := base ++ pyReplace (lastComponent url) ".m3u8" ("_" ++ q ++ ".m3u8")
  let resp := net.get streamUrl
  if resp.status = 200 then
    let r := scanVideoLines net base (splitLinesS resp.body)
    (r.1, Req.get streamUrl :: r.2)
  else (none, [Req.get streamUrl])

/-- Tier 2 quality loop (source lines 58-77): attempt each quality whose
marker substring appears in the playlist body, stopping at the first
attempt that yields a video URL. -/
def videoLoop (net : Net) (url base body : String) : List String → Option String × List Req
  | [] => (none, [])
  | q :: qs =>
    if strContains ("_" ++ q ++ ".m3u8") body then
      let t := tryQuality net url base q
      match t.1 with
      | some v => (some v, t.2)
      | none =>
        let r := videoLoop net url base body qs
        (r.1, t.2 ++ r.2)
    else videoLoop net url base body qs

/-- Tier 3 brute force (source lines 80-86): scan playlist lines for an
`http`-prefixed line containing `.mp4` that existence-checks success. -/
def mp4Scan (net : Net) : List String → Option String × List Req
  | [] => (none, [])
  | line :: rest =>
    if strContains ".mp4" line && strStarts "http" line then
      let u := pyStrip line
      if net.head u = 200 then (some u, [Req.head u])
      else
        let r := mp4Scan net rest
        (r.1, Req.head u :: r.2)
    else mp4Scan net rest

/-- Embedding of `get_video_and_audio_urls` (source lines 17-95), with the
full request trace recorded in order. -/
def get_video_and_audio_urls (net : Net) (m3u8_url : String) : ResolveResult :=
  let simpleUrl := simpleConvert m3u8_url
  if net.head simpleUrl = 200 then
    ⟨some simpleUrl, none, Method.simple, [Req.head simpleUrl]⟩
  else
    let resp := net.get m3u8_url
    if resp.status ≠ 200 then
      ⟨none, none, Method.failed, [Req.head simpleUrl, Req.get m3u8_url]⟩
    else
      let base := baseUrl m3u8_url
      let a := audioExtract net base resp.body
      let v2 := videoLoop net m3u8_url base resp.body qualityOrder
      let vm :=
        match v2.1 with
        | some v => (some v, ([] : List Req))
        | none => mp4Scan net (splitLinesS resp.body)
      match vm.1 with
      | some v =>
        ⟨some v, a.1, if a.1.isSome then Method.hls_separate else Method.hls_video_only,
          [Req.head simpleUrl, Req.get m3u8_url] ++ a.2 ++ v2.2 ++ vm.2⟩
      | none =>
        ⟨none, none, Method.failed,
          [Req.head simpleUrl, Req.get m3u8_url] ++ a.2 ++ v2.2 ++ vm.2⟩

/-- The filesystem: file path to optional byte content. -/
def FS : Type := String → Option (List Nat)

/-- The external mux tool collaborator: exit code of the version probe and of
the mux invocation; `none` models the subprocess call raising. -/
structure MuxTool where
  versionResult : Option Int
  muxResult : String → String → String → Option Int

/-- Embedding of `merge_video_audio` (source lines 98-139): probe the tool,
run the mux command, and on success delete both input files. -/
def merge_video_audio (tool : MuxTool) (fs : FS) (video_file audio_file output_file : String) :
    Bool × FS :=
  match tool.versionResult with
  | none => (false, fs)
  | some vc =>
    if vc ≠ 0 then (false, fs)
    else
      match tool.muxResult video_file audio_file output_file with
      | none => (false, fs)
      | some rc =>
        if rc = 0 then
          (true, fun n => if n = video_file ∨ n = audio_file then none else fs n)
        else (false, fs)

/-- The write loop of `download_file` (source lines 151-156): the file
content and the byte count, skipping empty chunks as `if data:` does. -/
def writeChunks : List (List Nat) → List Nat × Nat
  | [] => ([], 0)
  | d :: rest =>
    let r := writeChunks rest
    if d ≠ [] then (d ++ r.1, r.2 + d.length) else r

/-- Embedding of `download_file` (source lines 142-165): fetch, stream the
chunks to the destination, remove the file and fail when zero bytes were
written. -/
def download_file (net : Net) (fs : FS) (url filename : String) : Bool × FS :=
  let resp := net.get url
  if resp.status ≠ 200 then (false, fs)
  else
    let w := writeChunks resp.chunks
    let fs1 : FS := fun n => if n = filename then some w.1 else fs n
    if w.2 = 0 then (false, fun n => if n = filename then none else fs1 n)
    else (true, fs1)

/-- The parsed-page collaborator: results of the document queries the
program performs, one field per query (tag or attribute absent is `none`;
Python truthiness of the attribute value is handled at use sites). -/
structure Soup where
  linkAlternateHref : Option String
  videoClassSrc : Option String
  anyVideoSrc : Option String
  text : String
  ogTitle : Option String
  twitterTitle : Option String
  titleText : Option String
  ogDescription : Option String
  descriptionMeta : Option String
  keywordsMeta : Option String

/-- The metadata record built by `extract_pinterest_metadata`. -/
structure Metadata where
  title : Option String
  description : Option String
  keywords : List String
deriving DecidableEq

/-- Embedding of `extract_pinterest_metadata` (source lines 168-209): ordered
fallback chains per field, with Python truthiness on attribute values. -/
def extract_pinterest_metadata (soup : Soup) : Metadata :=
  let t1 : Option String :=
    match soup.ogTitle with
    | some s => if s = "" then none else some s
    | none => none
  let t2 : Option String :=
    match t1 with
    | some t => some t
    | none =>
      match soup.twitterTitle with
      | some s => if s = "" then none else some s
      | none => none
  let title : Option String :=
    match t2 with
    | some t => some t
    | none =>
      match soup.titleText with
      | some txt => some (pyStrip txt)
      | none => none
  let d1 : Option String :=
    match soup.ogDescription with
    | some s => if s = "" then none else some s
    | none => none
  let description : Option String :=
    match d1 with
    | some d => some d
    | none =>
      match soup.descriptionMeta with
      | some s => if s = "" then none else some s
      | none => none
  let keywords : List String :=
    match soup.keywordsMeta with
    | some s =>
      if s = "" then []
      else ((splitCommaS s).map pyStrip).filter (fun k => k ≠ "")
    | none => []
  ⟨title, description, keywords⟩

/-- A filesystem-affecting event of the orchestrator, in order. -/
inductive Ev where
  | download (url : String) (filename : String)
  | removeFile (filename : String)
  | merge (video audio output : String)
deriving DecidableEq

/-- The collaborator bundle of `download_pinterest_video`: HTTP client,
HTML parser, mux tool, and the timestamp used for filenames. -/
structure PinEnv where
  net : Net
  parse : String → Soup
  tool : MuxTool
  timestamp : String

/-- The success value of `download_pinterest_video`. -/
structure PinResult where
  filePath : String
  metadata : Metadata
deriving DecidableEq

/-- Short-link expansion (source lines 218-225): fetch the short link, read
the alternate link href, extract the `url=` query parameter. -/
def resolvePageUrl (env : PinEnv) (page_url : String) : Except String String :=
  if strContains "https://pin.it/" page_url then
    let resp := env.net.get page_url
    if resp.status ≠ 200 then Except.error "Invalid URL or network error"
    else
      match (env.parse resp.body).linkAlternateHref with
      | none => Except.error "TypeError: NoneType is not subscriptable"
      | some href =>
        match urlParamSearch href with
        | none => Except.error "AttributeError: NoneType has no attribute group"
        | some u => Except.ok u
  else Except.ok page_url

/-- Candidate video URL search (source lines 238-265): the class-specific
video element, any video element, then the four regex patterns in order. -/
def extractVideoUrl (soup : Soup) : Option String :=
  match soup.videoClassSrc with
  | some s =>
    if s = "" then
      match soup.anyVideoSrc with
      | some s2 =>
        if s2 = "" then
          (findPat1 soup.text <|> findPat2 soup.text <|> findPat3 soup.text <|> findPat4 soup.text)
        else some s2
      | none =>
        (findPat1 soup.text <|> findPat2 soup.text <|> findPat3 soup.text <|> findPat4 soup.text)
    else some s
  | none =>
    match soup.anyVideoSrc with
    | some s2 =>
      if s2 = "" then
        (findPat1 soup.text <|> findPat2 soup.text <|> findPat3 soup.text <|> findPat4 soup.text)
      else some s2
    | none =>
      (findPat1 soup.text <|> findPat2 soup.text <|> findPat3 soup.text <|> findPat4 soup.text)

/-- Stream resolution step (source lines 271-278): playlist URLs go through
`get_video_and_audio_urls`, failing when it yields no video; direct URLs
pass through with no audio. -/
def fetchStreams (env : PinEnv) (extractUrl : String) : Except String (String × Option String) :=
  if strEnds ".m3u8" extractUrl then
    let r := get_video_and_audio_urls env.net extractUrl
    match r.video with
    | none => Except.error "Could not find downloadable video from playlist"
    | some v => Except.ok (v, r.audio)
  else Except.ok (extractUrl, none)

/-- Two-track download path (source lines 285-304): video then audio into
temp files, delete the video temp on audio failure, then mux; on mux
failure return the video temp file as the result. -/
def twoTrackFlow (env : PinEnv) (fs : FS) (meta : Metadata) (vurl aurl final vfn afn : String) :
    Except String PinResult × FS × List Ev :=
  let dv := download_file env.net fs vurl vfn
  if dv.1 = false then
    (Except.error "Failed to download video track", dv.2, [Ev.download vurl vfn])
  else
    let da := download_file env.net dv.2 aurl afn
    if da.1 = false then
      (Except.error "Failed to download audio track",
        fun n => if n = vfn then none else da.2 n,
        [Ev.download vurl vfn, Ev.download aurl afn, Ev.removeFile vfn])
    else
      let m := merge_video_audio env.tool da.2 vfn afn final
      if m.1 = false then
        (Except.ok ⟨vfn, meta⟩, m.2,
          [Ev.download vurl vfn, Ev.download aurl afn, Ev.merge vfn afn final])
      else
        (Except.ok ⟨final, meta⟩, m.2,
          [Ev.download vurl vfn, Ev.download aurl afn, Ev.merge vfn afn final])

/-- Single-file download path (source lines 306-309). -/
def singleFlow (env : PinEnv) (fs : FS) (meta : Metadata) (vurl final : String) :
    Except String PinResult × FS × List Ev :=
  let d := download_file env.net fs vurl final
  if d.1 = false then
    (Except.error "Failed to download video file", d.2, [Ev.download vurl final])
  else (Except.ok ⟨final, meta⟩, d.2, [Ev.download vurl final])

/-- Filename of the merged final output for a timestamp (source line 283). -/
def finalOf (output_dir ts : String) : String := output_dir ++ "/" ++ ts ++ ".mp4"

/-- Filename of the video temp file for a timestamp (source line 287). -/
def vfnOf (output_dir ts : String) : String := output_dir ++ "/" ++ ts ++ "_video.mp4"

/-- Filename of the audio temp file for a timestamp (source line 288). -/
def afnOf (output_dir ts : String) : String := output_dir ++ "/" ++ ts ++ "_audio.mp4"

/-- Embedding of `download_pinterest_video` (source lines 212-311): resolve
the page, extract metadata and a candidate URL, resolve streams, download,
and optionally mux; raised exceptions become `Except.error` values, and the
final filesystem and event trace are returned. -/
def download_pinterest_video (env : PinEnv) (fs : FS) (page_url output_dir : String) :
    Except String PinResult × FS × List Ev :=
  match resolvePageUrl env page_url with
  | Except.error e => (Except.error e, fs, [])
  | Except.ok purl =>
    let resp := env.net.get purl
    if resp.status ≠ 200 then (Except.error "Failed to fetch Pinterest page", fs, [])
    else
      let soup := env.parse resp.body
      let meta := extract_pinterest_metadata soup
      match extractVideoUrl soup with
      | none => (Except.error "Could not find video URL on Pinterest page", fs, [])
      | some extractUrl =>
        if extractUrl = "" then
          (Except.error "Could not find video URL on Pinterest page", fs, [])
        else
          match fetchStreams env extractUrl with
          | Except.error e => (Except.error e, fs, [])
          | Except.ok vu =>
            match vu.2 with
            | some aurl =>
              twoTrackFlow env fs meta vu.1 aurl (finalOf output_dir env.timestamp)
                (vfnOf output_dir env.timestamp) (afnOf output_dir env.timestamp)
            | none => singleFlow env fs meta vu.1 (finalOf output_dir env.timestamp)

/-- The empty filesystem. -/
def fsNone : FS := fun _ => none

/-- Network fixture: Tier 1 fails, the playlist advertises the 720w and 540w
markers, the 720w sub-manifest fetch fails, the 540w one succeeds. -/
def netC1 : Net where
  get u :=
    if u = "p://a/x.m3u8" then ⟨200, "_720w.m3u8\n_540w.m3u8", []⟩
    else if u = "p://a/x_540w.m3u8" then ⟨200, "v.cmfv", []⟩
    else ⟨404, "", []⟩
  head u := if u = "p://a/v.cmfv" then 200 else 404

/-- Network fixture: every existence check succeeds. -/
def netC2 : Net where
  get _ := ⟨404, "", []⟩
  head _ := 200

/-- Network fixture: Tier 1 fails, the playlist has an audio sub-manifest
that resolves, no quality marker, and an `http`-prefixed `.mp4` line. -/
def netC3 : Net where
  get u :=
    if u = "p://a/x.m3u8" then ⟨200, "URI=\"s_audio.m3u8\"\nhttp://b/v.mp4", []⟩
    else if u = "p://a/s_audio.m3u8" then ⟨200, "a.cmfa", []⟩
    else ⟨404, "", []⟩
  head u := if u = "p://a/a.cmfa" then 200 else if u = "http://b/v.mp4" then 200 else 404

/-- Network fixture: everything fails. -/
def netC4 : Net where
  get _ := ⟨404, "", []⟩
  head _ := 404

/-- Network fixture: a success response streaming only an empty chunk. -/
def netC5 : Net where
  get _ := ⟨200, "", [[]]⟩
  head _ := 404

/-- Mux tool fixture: the version probe succeeds and the mux exits 1. -/
def toolC6 : MuxTool where
  versionResult := some 0
  muxResult _ _ _ := some 1

/-- A parsed document with every query empty. -/
def soupEmpty : Soup := ⟨none, none, none, "", none, none, none, none, none, none⟩

/-- A parsed document whose class-specific video element carries a playlist
URL. -/
def soupM : Soup := ⟨none, some "M.m3u8", none, "", some "T7", none, none, none, none, none⟩

/-- Network fixture for the full pipeline: page fetch, playlist resolution
with audio, and both track downloads succeed. -/
def netC7 : Net where
  get u :=
    if u = "P" then ⟨200, "PB", []⟩
    else if u = "M.m3u8" then ⟨200, "URI=\"x_audio.m3u8\"\n_720w.m3u8", []⟩
    else if u = "M.m3u8/x_audio.m3u8" then ⟨200, "s.cmfa", []⟩
    else if u = "M.m3u8/M_720w.m3u8" then ⟨200, "v.cmfv", []⟩
    else if u = "M.m3u8/v.cmfv" then ⟨200, "", [[1]]⟩
    else if u = "M.m3u8/s.cmfa" then ⟨200, "", [[2]]⟩
    else ⟨404, "", []⟩
  head u :=
    if u = "M.m3u8/v.cmfv" then 200 else if u = "M.m3u8/s.cmfa" then 200 else 404

/-- Pipeline environment where the mux tool exits nonzero. -/
def envC7 : PinEnv where
  net := netC7
  parse s := if s = "PB" then soupM else soupEmpty
  tool := ⟨some 0, fun _ _ _ => some 1⟩
  timestamp := "T"

/-- Like `netC7` but the video track download itself returns 404. -/
def netC8A : Net where
  get u :=
    if u = "P" then ⟨200, "PB", []⟩
    else if u = "M.m3u8" then ⟨200, "URI=\"x_audio.m3u8\"\n_720w.m3u8", []⟩
    else if u = "M.m3u8/x_audio.m3u8" then ⟨200, "s.cmfa", []⟩
    else if u = "M.m3u8/M_720w.m3u8" then ⟨200, "v.cmfv", []⟩
    else if u = "M.m3u8/s.cmfa" then ⟨200, "", [[2]]⟩
    else ⟨404, "", []⟩
  head u :=
    if u = "M.m3u8/v.cmfv" then 200 else if u = "M.m3u8/s.cmfa" then 200 else 404

/-- Pipeline environment where the video track download fails. -/
def envC8A : PinEnv where
  net := netC8A
  parse s := if s = "PB" then soupM else soupEmpty
  tool := ⟨some 0, fun _ _ _ => some 0⟩
  timestamp := "T"

/-- Like `netC7` but the audio track download streams zero bytes. -/
def netC8B : Net where
  get u :=
    if u = "P" then ⟨200, "PB", []⟩
    else if u = "M.m3u8" then ⟨200, "URI=\"x_audio.m3u8\"\n_720w.m3u8", []⟩
    else if u = "M.m3u8/x_audio.m3u8" then ⟨200, "s.cmfa", []⟩
    else if u = "M.m3u8/M_720w.m3u8" then ⟨200, "v.cmfv", []⟩
    else if u = "M.m3u8/v.cmfv" then ⟨200, "", [[1]]⟩
    else if u = "M.m3u8/s.cmfa" then ⟨200, "", []⟩
    else ⟨404, "", []⟩
  head u :=
    if u = "M.m3u8/v.cmfv" then 200 else if u = "M.m3u8/s.cmfa" then 200 else 404

/-- Pipeline environment where the audio track download fails. -/
def envC8B : PinEnv where
  net := netC8B
  parse s := if s = "PB" then soupM else soupEmpty
  tool := ⟨some 0, fun _ _ _ => some 0⟩
  timestamp := "T"

/-- A parsed document with no og:title, a twitter:title, and a title tag. -/
def soupC9 : Soup := ⟨none, none, none, "", none, some "TW", some "PAGE", none, none, none⟩

/-- A successful `download_file` leaves the streamed content at the
destination path. -/
theorem download_file_true_writes (net : Net) (fs : FS) (url fn : String)
    (h : (download_file net fs url fn).1 = true) :
    (download_file net fs url fn).2 fn = some (writeChunks (net.get url).chunks).1 := by
  unfold download_file at h ⊢
  by_cases h1 : (net.get url).status ≠ 200
  · simp only [if_pos h1] at h
    cases h
  · simp only [if_neg h1] at h ⊢
    by_cases h2 : (writeChunks (net.get url).chunks).2 = 0
    · simp only [if_pos h2] at h
      cases h
    · simp only [if_neg h2]
      simp

/-- A failing `merge_video_audio` leaves the filesystem untouched. -/
theorem merge_fail_fs (tool : MuxTool) (fs : FS) (v a o : String)
    (h : (merge_video_audio tool fs v a o).1 = false) :
    (merge_video_audio tool fs v a o).2 = fs := by
  unfold merge_video_audio at h ⊢
  cases hv : tool.versionResult with
  | none => rfl
  | some vc =>
    simp only [hv] at h ⊢
    by_cases hvc : vc ≠ 0
    · simp only [if_pos hvc]
    · simp only [if_neg hvc] at h ⊢
      cases hm : tool.muxResult v a o with
      | none => rfl
      | some rc =>
        simp only [hm] at h ⊢
        by_cases hrc : rc = 0
        · simp only [if_pos hrc] at h
          cases h
        · simp only [if_neg hrc]

/-- C2: if the existence check on the Tier-1 rewritten URL returns success,
`get_video_and_audio_urls` returns the rewritten URL with no audio and
method `simple` immediately, and its request trace is exactly the single
HEAD request: neither the Tier-2 manifest fetch nor the Tier-3 scan is
performed. -/
theorem tier1_short_circuit (net : Net) (url : String)
    (h : net.head (simpleConvert url) = 200) :
    get_video_and_audio_urls net url =
      ⟨some (simpleConvert url), none, Method.simple, [Req.head (simpleConvert url)]⟩ := by
  simp only [get_video_and_audio_urls]
  rw [if_pos h]

/-- C2 witness: the theorem applied at a concrete network. -/
theorem tier1_short_circuit_witness :
    netC2.head (simpleConvert "p://a/x.m3u8") = 200 ∧
    get_video_and_audio_urls netC2 "p://a/x.m3u8" =
      ⟨some (simpleConvert "p://a/x.m3u8"), none, Method.simple,
        [Req.head (simpleConvert "p://a/x.m3u8")]⟩ :=
  ⟨rfl, tier1_short_circuit netC2 "p://a/x.m3u8" rfl⟩

/-- C4: for every network and manifest URL, the resolved triple satisfies
the invariant: method `failed` implies the video URL is absent, and the
audio URL is never present when the video URL is absent. -/
theorem resolved_streams_invariant (net : Net) (url : String) :
    ((get_video_and_audio_urls net url).method = Method.failed →
      (get_video_and_audio_urls net url).video = none) ∧
    ((get_video_and_audio_urls net url).video = none →
      (get_video_and_audio_urls net url).audio = none) := by
  simp only [get_video_and_audio_urls]
  by_cases h1 : net.head (simpleConvert url) = 200
  · rw [if_pos h1]
    exact ⟨(fun h => nomatch h), (fun h => nomatch h)⟩
  · rw [if_neg h1]
    by_cases h2 : (net.get url).status ≠ 200
    · rw [if_pos h2]
      exact ⟨fun _ => rfl, fun _ => rfl⟩
    · rw [if_neg h2]
      cases hv : (videoLoop net url (baseUrl url) (net.get url).body qualityOrder).1 with
      | some v =>
        simp only [hv]
        refine ⟨fun h => ?_, fun h => nomatch h⟩
        by_cases ha : (audioExtract net (baseUrl url) (net.get url).body).1.isSome
        · rw [if_pos ha] at h; cases h
        · rw [if_neg ha] at h; cases h
      | none =>
        simp only [hv]
        cases hm : (mp4Scan net (splitLinesS (net.get url).body)).1 with
        | some v =>
          simp only [hm]
          refine ⟨fun h => ?_, fun h => nomatch h⟩
          by_cases ha : (audioExtract net (baseUrl url) (net.get url).body).1.isSome
          · rw [if_pos ha] at h; cases h
          · rw [if_neg ha] at h; cases h
        | none =>
          simp only [hm]
          exact ⟨(fun _ => trivial), (fun _ => trivial)⟩

/-- C4 witness: the invariant instantiated at a network where resolution
fails, with both implications discharged. -/
theorem resolved_streams_invariant_witness :
    (get_video_and_audio_urls netC4 "u").video = none ∧
    (get_video_and_audio_urls netC4 "u").audio = none :=
  ⟨(resolved_streams_invariant netC4 "u").1 (by decide),
   (resolved_streams_invariant netC4 "u").2
     ((resolved_streams_invariant netC4 "u").1 (by decide))⟩

/-- C5: when the response has success status but the streamed body yields
zero bytes written, `download_file` returns failure and the destination
file is absent afterwards. -/
theorem download_zero_bytes_removes (net : Net) (fs : FS) (url filename : String)
    (h1 : (net.get url).status = 200)
    (h2 : (writeChunks (net.get url).chunks).2 = 0) :
    (download_file net fs url filename).1 = false ∧
    (download_file net fs url filename).2 filename = none := by
  unfold download_file
  rw [if_neg (fun hn => hn h1), if_pos h2]
  exact ⟨rfl, if_pos rfl⟩

/-- C5 witness: a success response streaming only an empty chunk. -/
theorem download_zero_bytes_removes_witness :
    (download_file netC5 fsNone "u" "f").1 = false ∧
    (download_file netC5 fsNone "u" "f").2 "f" = none :=
  download_zero_bytes_removes netC5 fsNone "u" "f" rfl rfl

/-- C6: when the version probe succeeds but the mux invocation exits
nonzero or raises, `merge_video_audio` returns failure and the filesystem —
in particular both input files — is left unchanged. -/
theorem merge_failure_keeps_inputs (tool : MuxTool) (fs : FS) (v a o : String)
    (h1 : tool.versionResult = some 0)
    (h2 : tool.muxResult v a o ≠ some 0) :
    merge_video_audio tool fs v a o = (false, fs) := by
  unfold merge_video_audio
  rw [h1]
  simp only [ne_eq, not_true_eq_false, if_neg, reduceIte]
  cases hm : tool.muxResult v a o with
  | none => rfl
  | some rc =>
    have hrc : ¬ rc = 0 := fun h => h2 (h ▸ hm)
    simp only [if_neg hrc]

/-- C6 witness: the theorem applied at a tool whose mux exits 1. -/
theorem merge_failure_keeps_inputs_witness :
    merge_video_audio toolC6 fsNone "v" "a" "o" = (false, fsNone) :=
  merge_failure_keeps_inputs toolC6 fsNone "v" "a" "o" rfl (by decide)

/-- C9: when the og:title query yields no truthy content but twitter:title
yields content, the extracted title is the twitter:title content — the
title element is never consulted. -/
theorem title_twitter_fallback (soup : Soup) (s : String)
    (hog : soup.ogTitle = none ∨ soup.ogTitle = some "")
    (htw : soup.twitterTitle = some s) (hs : s ≠ "") :
    (extract_pinterest_metadata soup).title = some s := by
  unfold extract_pinterest_metadata
  rcases hog with h | h <;> rw [h, htw] <;> simp [hs]

/-- C9 witness: the theorem applied at a document carrying both a
twitter:title and a title element. -/
theorem title_twitter_fallback_witness :
    (extract_pinterest_metadata soupC9).title = some "TW" :=
  title_twitter_fallback soupC9 "TW" (Or.inl rfl) rfl (by decide)

/-- C1 counterexample: with the 720w and 540w markers both present and the
720w attempt yielding no video URL, the resolver does attempt the lower
540w quality (its sub-manifest GET appears in the trace) and resolves the
video from it, contradicting the claim that only the first matching
quality is attempted. -/
theorem quality_single_attempt_cex :
    strContains "_720w.m3u8" (netC1.get "p://a/x.m3u8").body = true ∧
    strContains "_540w.m3u8" (netC1.get "p://a/x.m3u8").body = true ∧
    (tryQuality netC1 "p://a/x.m3u8" (baseUrl "p://a/x.m3u8") "720w").1 = none ∧
    Req.get "p://a/x_540w.m3u8" ∈ (get_video_and_audio_urls netC1 "p://a/x.m3u8").trace ∧
    (get_video_and_audio_urls netC1 "p://a/x.m3u8").video = some "p://a/v.cmfv" := by
  decide

/-- C1 amended: when the first quality whose marker appears in the manifest
body yields no video URL, the Tier-2 loop falls through and continues with
the remaining qualities, prefixing the failed attempt's requests to the
trace. -/
theorem quality_loop_falls_through (net : Net) (url base body q : String) (qs : List String)
    (hmark : strContains ("_" ++ q ++ ".m3u8") body = true)
    (hfail : (tryQuality net url base q).1 = none) :
    videoLoop net url base body (q :: qs) =
      ((videoLoop net url base body qs).1,
        (tryQuality net url base q).2 ++ (videoLoop net url base body qs).2) := by
  simp only [videoLoop, hmark, hfail, if_true]

/-- C1 witness: the amended fall-through theorem applied at the concrete
network of the counterexample. -/
theorem quality_loop_falls_through_witness :
    videoLoop netC1 "p://a/x.m3u8" "p://a/" "_720w.m3u8\n_540w.m3u8"
        ["720w", "540w", "360w", "240w"] =
      ((videoLoop netC1 "p://a/x.m3u8" "p://a/" "_720w.m3u8\n_540w.m3u8"
          ["540w", "360w", "240w"]).1,
        (tryQuality netC1 "p://a/x.m3u8" "p://a/" "720w").2 ++
          (videoLoop netC1 "p://a/x.m3u8" "p://a/" "_720w.m3u8\n_540w.m3u8"
            ["540w", "360w", "240w"]).2) :=
  quality_loop_falls_through netC1 "p://a/x.m3u8" "p://a/" "_720w.m3u8\n_540w.m3u8"
    "720w" ["540w", "360w", "240w"] (by decide) (by decide)

/-- C3 counterexample: Tier 2 yields no video, Tier 3 finds the `.mp4`
line, yet the returned audio URL is the one the earlier audio extraction
found — not absent as claimed. -/
theorem tier3_no_audio_cex :
    (videoLoop netC3 "p://a/x.m3u8" (baseUrl "p://a/x.m3u8")
        (netC3.get "p://a/x.m3u8").body qualityOrder).1 = none ∧
    (get_video_and_audio_urls netC3 "p://a/x.m3u8").video = some "http://b/v.mp4" ∧
    (get_video_and_audio_urls netC3 "p://a/x.m3u8").audio = some "p://a/a.cmfa" ∧
    (get_video_and_audio_urls netC3 "p://a/x.m3u8").method = Method.hls_separate := by
  decide

/-- C3 amended: when Tier 1 fails, the manifest fetch succeeds, Tier 2
yields no video URL and Tier 3's scan existence-checks a line successfully,
that line is the video URL and the audio URL is whatever the earlier audio
extraction found. -/
theorem tier3_video_keeps_audio (net : Net) (url v : String)
    (h1 : ¬ net.head (simpleConvert url) = 200)
    (h2 : (net.get url).status = 200)
    (h3 : (videoLoop net url (baseUrl url) (net.get url).body qualityOrder).1 = none)
    (h4 : (mp4Scan net (splitLinesS (net.get url).body)).1 = some v) :
    (get_video_and_audio_urls net url).video = some v ∧
    (get_video_and_audio_urls net url).audio =
      (audioExtract net (baseUrl url) (net.get url).body).1 := by
  simp only [get_video_and_audio_urls]
  rw [if_neg h1, if_neg (fun hn => hn h2)]
  simp only [h3, h4]
  exact ⟨trivial, trivial⟩

/-- C3 witness: the amended theorem applied at the concrete network of the
counterexample. -/
theorem tier3_video_keeps_audio_witness :
    (get_video_and_audio_urls netC3 "p://a/x.m3u8").video = some "http://b/v.mp4" ∧
    (get_video_and_audio_urls netC3 "p://a/x.m3u8").audio =
      (audioExtract netC3 (baseUrl "p://a/x.m3u8") (netC3.get "p://a/x.m3u8").body).1 :=
  tier3_video_keeps_audio netC3 "p://a/x.m3u8" "http://b/v.mp4"
    (by decide) (by decide) (by decide) (by decide)

/-- When the page resolves, a candidate URL is extracted, and stream
resolution yields a video URL with an audio URL, the pipeline reduces to
the two-track download flow. -/
theorem pipeline_two_track_reduction
    (env : PinEnv) (fs : FS) (page_url output_dir purl u v a : String)
    (h1 : resolvePageUrl env page_url = Except.ok purl)
    (h2 : (env.net.get purl).status = 200)
    (h3 : extractVideoUrl (env.parse (env.net.get purl).body) = some u)
    (h4 : ¬ u = "")
    (h5 : fetchStreams env u = Except.ok (v, some a)) :
    download_pinterest_video env fs page_url output_dir =
      twoTrackFlow env fs
        (extract_pinterest_metadata (env.parse (env.net.get purl).body))
        v a (finalOf output_dir env.timestamp) (vfnOf output_dir env.timestamp)
        (afnOf output_dir env.timestamp) := by
  simp only [download_pinterest_video, h1, h3, h5]
  rw [if_neg (fun hn => hn h2), if_neg h4]

/-- C7: when both temp downloads succeed and the mux fails, the pipeline
still succeeds, returning the video temp filename as the result path, and
the audio temp file is left on disk. -/
theorem mux_failure_returns_video_temp
    (env : PinEnv) (fs : FS) (page_url output_dir purl u v a : String)
    (h1 : resolvePageUrl env page_url = Except.ok purl)
    (h2 : (env.net.get purl).status = 200)
    (h3 : extractVideoUrl (env.parse (env.net.get purl).body) = some u)
    (h4 : ¬ u = "")
    (h5 : fetchStreams env u = Except.ok (v, some a))
    (h6 : (download_file env.net fs v (vfnOf output_dir env.timestamp)).1 = true)
    (h7 : (download_file env.net
        (download_file env.net fs v (vfnOf output_dir env.timestamp)).2
        a (afnOf output_dir env.timestamp)).1 = true)
    (h8 : (merge_video_audio env.tool
        (download_file env.net
          (download_file env.net fs v (vfnOf output_dir env.timestamp)).2
          a (afnOf output_dir env.timestamp)).2
        (vfnOf output_dir env.timestamp) (afnOf output_dir env.timestamp)
        (finalOf output_dir env.timestamp)).1 = false) :
    (download_pinterest_video env fs page_url output_dir).1 =
      Except.ok ⟨vfnOf output_dir env.timestamp,
        extract_pinterest_metadata (env.parse (env.net.get purl).body)⟩ ∧
    (download_pinterest_video env fs page_url output_dir).2.1
      (afnOf output_dir env.timestamp) ≠ none := by
  rw [pipeline_two_track_reduction env fs page_url output_dir purl u v a h1 h2 h3 h4 h5]
  simp only [twoTrackFlow]
  have n6 : ¬ ((download_file env.net fs v (vfnOf output_dir env.timestamp)).1 = false) := by
    simp [h6]
  have n7 : ¬ ((download_file env.net
      (download_file env.net fs v (vfnOf output_dir env.timestamp)).2
      a (afnOf output_dir env.timestamp)).1 = false) := by
    simp [h7]
  rw [if_neg n6, if_neg n7, if_pos h8]
  refine ⟨rfl, ?_⟩
  show (merge_video_audio env.tool
      (download_file env.net
        (download_file env.net fs v (vfnOf output_dir env.timestamp)).2
        a (afnOf output_dir env.timestamp)).2
      (vfnOf output_dir env.timestamp) (afnOf output_dir env.timestamp)
      (finalOf output_dir env.timestamp)).2 (afnOf output_dir env.timestamp) ≠ none
  rw [merge_fail_fs _ _ _ _ _ h8, download_file_true_writes _ _ _ _ h7]
  simp

/-- C7 witness: the theorem applied at the concrete environment where both
downloads succeed and the mux tool exits 1. -/
theorem mux_failure_returns_video_temp_witness :
    (download_pinterest_video envC7 fsNone "P" "D").1 =
      Except.ok ⟨vfnOf "D" "T",
        extract_pinterest_metadata (envC7.parse (envC7.net.get "P").body)⟩ ∧
    (download_pinterest_video envC7 fsNone "P" "D").2.1 (afnOf "D" "T") ≠ none :=
  mux_failure_returns_video_temp envC7 fsNone "P" "D" "P" "M.m3u8"
    "M.m3u8/v.cmfv" "M.m3u8/s.cmfa" rfl rfl rfl (by decide) rfl rfl rfl rfl

/-- C8: in the two-track path, if the video download fails the pipeline
stops with the video-track error, the filesystem is exactly what the failed
download left, and the event trace shows the audio download was never
attempted; if the video download succeeds and the audio download fails, the
pipeline stops with the audio-track error, the video temp file is removed,
and the trace records both downloads and the removal. -/
theorem two_track_failure_handling
    (env : PinEnv) (fs : FS) (page_url output_dir purl u v a : String)
    (h1 : resolvePageUrl env page_url = Except.ok purl)
    (h2 : (env.net.get purl).status = 200)
    (h3 : extractVideoUrl (env.parse (env.net.get purl).body) = some u)
    (h4 : ¬ u = "")
    (h5 : fetchStreams env u = Except.ok (v, some a)) :
    ((download_file env.net fs v (vfnOf output_dir env.timestamp)).1 = false →
      (download_pinterest_video env fs page_url output_dir).1 =
        Except.error "Failed to download video track" ∧
      (download_pinterest_video env fs page_url output_dir).2.1 =
        (download_file env.net fs v (vfnOf output_dir env.timestamp)).2 ∧
      (download_pinterest_video env fs page_url output_dir).2.2 =
        [Ev.download v (vfnOf output_dir env.timestamp)]) ∧
    ((download_file env.net fs v (vfnOf output_dir env.timestamp)).1 = true →
      (download_file env.net
          (download_file env.net fs v (vfnOf output_dir env.timestamp)).2
          a (afnOf output_dir env.timestamp)).1 = false →
      (download_pinterest_video env fs page_url output_dir).1 =
        Except.error "Failed to download audio track" ∧
      (download_pinterest_video env fs page_url output_dir).2.1
        (vfnOf output_dir env.timestamp) = none ∧
      (download_pinterest_video env fs page_url output_dir).2.2 =
        [Ev.download v (vfnOf output_dir env.timestamp),
         Ev.download a (afnOf output_dir env.timestamp),
         Ev.removeFile (vfnOf output_dir env.timestamp)]) := by
  rw [pipeline_two_track_reduction env fs page_url output_dir purl u v a h1 h2 h3 h4 h5]
  constructor
  · intro hv
    simp only [twoTrackFlow]
    rw [if_pos hv]
    exact ⟨rfl, rfl, rfl⟩
  · intro hv ha
    simp only [twoTrackFlow]
    have n6 : ¬ ((download_file env.net fs v (vfnOf output_dir env.timestamp)).1 = false) := by
      simp [hv]
    rw [if_neg n6, if_pos ha]
    refine ⟨rfl, ?_, rfl⟩
    exact if_pos rfl

/-- C8 witness: both failure branches exercised at concrete environments
(video download 404s; audio download streams zero bytes). -/
theorem two_track_failure_handling_witness :
    ((download_pinterest_video envC8A fsNone "P" "D").1 =
        Except.error "Failed to download video track" ∧
      (download_pinterest_video envC8A fsNone "P" "D").2.2 =
        [Ev.download "M.m3u8/v.cmfv" (vfnOf "D" "T")]) ∧
    ((download_pinterest_video envC8B fsNone "P" "D").1 =
        Except.error "Failed to download audio track" ∧
      (download_pinterest_video envC8B fsNone "P" "D").2.1 (vfnOf "D" "T") = none) := by
  constructor
  · have h := (two_track_failure_handling envC8A fsNone "P" "D" "P" "M.m3u8"
      "M.m3u8/v.cmfv" "M.m3u8/s.cmfa" rfl rfl rfl (by decide) rfl).1 rfl
    exact ⟨h.1, h.2.2⟩
  · have h := (two_track_failure_handling envC8B fsNone "P" "D" "P" "M.m3u8"
      "M.m3u8/v.cmfv" "M.m3u8/s.cmfa" rfl rfl rfl (by decide) rfl).2 rfl rfl
    exact ⟨h.1, h.2.1⟩

/-- A list is a Boolean prefix of itself followed by anything. -/
theorem isPrefixOf_self_append (pat t : List Char) : pat.isPrefixOf (pat ++ t) = true := by
  induction pat with
  | nil => simp [List.isPrefixOf]
  | cons c p ih => simp [List.isPrefixOf, ih]

/-- Skipping exactly the length of a leading block resumes scanning after
it. -/
theorem replaceGo_skipn (pat rep : List Char) (l t : List Char) :
    replaceGo pat rep l.length (l ++ t) = replaceGo pat rep 0 t := by
  induction l with
  | nil => rfl
  | cons c l ih =>
    show replaceGo pat rep l.length (l ++ t) = replaceGo pat rep 0 t
    exact ih

/-- Replacement consumes an occurrence of the pattern sitting at the head,
emitting the replacement. -/
theorem replaceGo_consume (pat rep t : List Char) (h : pat ≠ []) :
    replaceGo pat rep 0 (pat ++ t) = rep ++ replaceGo pat rep 0 t := by
  cases pat with
  | nil => exact absurd rfl h
  | cons c pr =>
    show replaceGo (c :: pr) rep 0 (c :: (pr ++ t)) = _
    simp only [replaceGo]
    rw [if_pos ⟨List.cons_ne_nil c pr, isPrefixOf_self_append (c :: pr) t⟩]
    exact congrArg (rep ++ ·) (replaceGo_skipn (c :: pr) rep pr t)

/-- Replacement passes unchanged over a block containing no occurrence of
the pattern's first character. -/
theorem replaceGo_skip (p0 : Char) (pr rep : List Char) (l t : List Char)
    (hl : ∀ c ∈ l, c ≠ p0) :
    replaceGo (p0 :: pr) rep 0 (l ++ t) = l ++ replaceGo (p0 :: pr) rep 0 t := by
  induction l with
  | nil => rfl
  | cons c l ih =>
    show replaceGo (p0 :: pr) rep 0 (c :: (l ++ t)) = _
    simp only [replaceGo]
    have hpre : ¬ ((p0 :: pr).isPrefixOf (c :: (l ++ t)) = true) := by
      simp only [List.isPrefixOf, Bool.and_eq_true, beq_iff_eq]
      exact fun hx => (hl c (List.mem_cons_self c l)) hx.1.symm
    rw [if_neg (fun hcond => hpre hcond.2)]
    exact congrArg (c :: ·) (ih (fun x hx => hl x (List.mem_cons_of_mem c hx)))

/-- Both passes of the Tier-1 rewrite replace every occurrence of their
pattern, wherever it sits in the list. -/
theorem rewrite_hls_m3u8_all (a b c d : List Char)
    (ha : ∀ x ∈ a, x ≠ 'h' ∧ x ≠ 'm') (hb : ∀ x ∈ b, x ≠ 'h' ∧ x ≠ 'm')
    (hc : ∀ x ∈ c, x ≠ 'h' ∧ x ≠ 'm') (hd : ∀ x ∈ d, x ≠ 'h' ∧ x ≠ 'm') :
    replaceGo ['m', '3', 'u', '8'] ['m', 'p', '4'] 0
      (replaceGo ['h', 'l', 's'] ['7', '2', '0', 'p'] 0
        (a ++ ['h', 'l', 's'] ++ b ++ ['m', '3', 'u', '8'] ++ c ++ ['h', 'l', 's'] ++ d ++
          ['m', '3', 'u', '8'])) =
    a ++ ['7', '2', '0', 'p'] ++ b ++ ['m', 'p', '4'] ++ c ++ ['7', '2', '0', 'p'] ++ d ++
      ['m', 'p', '4'] := by
  simp only [List.append_assoc]
  have hpass1 : replaceGo ['h', 'l', 's'] ['7', '2', '0', 'p'] 0
      (a ++ (['h', 'l', 's'] ++ (b ++ (['m', '3', 'u', '8'] ++
        (c ++ (['h', 'l', 's'] ++ (d ++ ['m', '3', 'u', '8']))))))) =
      a ++ (['7', '2', '0', 'p'] ++ (b ++ (['m', '3', 'u', '8'] ++
        (c ++ (['7', '2', '0', 'p'] ++ (d ++ ['m', '3', 'u', '8'])))))) := by
    rw [replaceGo_skip 'h' ['l', 's'] ['7', '2', '0', 'p'] a _ (fun x hx => (ha x hx).1)]
    rw [replaceGo_consume ['h', 'l', 's'] ['7', '2', '0', 'p'] _ (by simp)]
    rw [replaceGo_skip 'h' ['l', 's'] ['7', '2', '0', 'p'] b _ (fun x hx => (hb x hx).1)]
    rw [replaceGo_skip 'h' ['l', 's'] ['7', '2', '0', 'p'] ['m', '3', 'u', '8'] _ (by decide)]
    rw [replaceGo_skip 'h' ['l', 's'] ['7', '2', '0', 'p'] c _ (fun x hx => (hc x hx).1)]
    rw [replaceGo_consume ['h', 'l', 's'] ['7', '2', '0', 'p'] _ (by simp)]
    rw [replaceGo_skip 'h' ['l', 's'] ['7', '2', '0', 'p'] d _ (fun x hx => (hd x hx).1)]
    rw [(by decide :
      replaceGo ['h', 'l', 's'] ['7', '2', '0', 'p'] 0 ['m', '3', 'u', '8'] =
        ['m', '3', 'u', '8'])]
  rw [hpass1]
  rw [replaceGo_skip 'm' ['3', 'u', '8'] ['m', 'p', '4'] a _ (fun x hx => (ha x hx).2)]
  rw [replaceGo_skip 'm' ['3', 'u', '8'] ['m', 'p', '4'] ['7', '2', '0', 'p'] _ (by decide)]
  rw [replaceGo_skip 'm' ['3', 'u', '8'] ['m', 'p', '4'] b _ (fun x hx => (hb x hx).2)]
  rw [replaceGo_consume ['m', '3', 'u', '8'] ['m', 'p', '4'] _ (by simp)]
  rw [replaceGo_skip 'm' ['3', 'u', '8'] ['m', 'p', '4'] c _ (fun x hx => (hc x hx).2)]
  rw [replaceGo_skip 'm' ['3', 'u', '8'] ['m', 'p', '4'] ['7', '2', '0', 'p'] _ (by decide)]
  rw [replaceGo_skip 'm' ['3', 'u', '8'] ['m', 'p', '4'] d _ (fun x hx => (hd x hx).2)]
  rw [(by decide :
    replaceGo ['m', '3', 'u', '8'] ['m', 'p', '4'] 0 ['m', '3', 'u', '8'] = ['m', 'p', '4'])]

/-- C10: the Tier-1 rewrite substitutes every occurrence of `hls` by `720p`
and every occurrence of `m3u8` by `mp4` anywhere in the URL — host, path,
or query — for any surrounding segments free of the patterns' first
characters. -/
theorem tier1_rewrite_global (a b c d : String)
    (ha : ∀ x ∈ a.data, x ≠ 'h' ∧ x ≠ 'm') (hb : ∀ x ∈ b.data, x ≠ 'h' ∧ x ≠ 'm')
    (hc : ∀ x ∈ c.data, x ≠ 'h' ∧ x ≠ 'm') (hd : ∀ x ∈ d.data, x ≠ 'h' ∧ x ≠ 'm') :
    simpleConvert (a ++ "hls" ++ b ++ "m3u8" ++ c ++ "hls" ++ d ++ "m3u8") =
      a ++ "720p" ++ b ++ "mp4" ++ c ++ "720p" ++ d ++ "mp4" :=
  congrArg String.mk (rewrite_hls_m3u8_all a.data b.data c.data d.data ha hb hc hd)

/-- C10 witness: a URL with the patterns in the host, the path, and the
query position, all rewritten. -/
theorem tier1_rewrite_global_witness :
    simpleConvert ("x://v1.pin.co/" ++ "hls" ++ "/video/" ++ "m3u8" ++ "?q=" ++ "hls" ++
        "&z=" ++ "m3u8") =
      "x://v1.pin.co/" ++ "720p" ++ "/video/" ++ "mp4" ++ "?q=" ++ "720p" ++ "&z=" ++ "mp4" :=
  tier1_rewrite_global "x://v1.pin.co/" "/video/" "?q=" "&z="
    (by decide) (by decide) (by decide) (by decide)
